import Mathlib

/-!
Verification of the token-swap program (solana-token-swap).

Shallow embedding of the program's arithmetic and command-issuing core:

* `fees.rs`      → `calculate_fee`, `Fees.trading_fee`, `validate_fraction`, `Fees.validate`
* `constraints.rs` → `validate_supply`, `validate_fees`
* `processor.rs` → `process_init_pool`, `process_deposit_tokens`,
                   `process_withdraw_tokens`, `process_swap`
* `state.rs`     → `SwapState.pack_into`, `SwapState.unpack`, `SwapState.unpack_unchecked`
* `instruction.rs` → `SwapInstruction.pack`, `SwapInstruction.unpack`

Machine integers (u64/u128) are modelled as `Nat` with explicit bound checks
where the Rust code would abort or return a conversion error.  Each processor
entry point is modelled as the function from the live balances it reads and the
instruction arguments to the ordered list of value-moving commands it issues
(`transfer` / `mint_to` / `burn`) together with its result.  The account-key,
ownership and mint-identity checks, which depend only on the opaque pubkeys of
the supplied accounts and all of which precede every arithmetic step and every
command in the Rust source, are folded into one boolean parameter
`account_checks_ok` consumed first.
-/

namespace TokenSwap

/-- Error kinds of the program (`error.rs` constructors that the embedded code
can produce).  `overflowAbort`, `underflowAbort` and `divByZero` model Rust
arithmetic aborts (the build runs with overflow checks, see `u64_checked_mul`);
`accountCheckFailed` stands for any of the folded account-identity errors. -/
inductive SwapErr
  | AlreadyInUse
  | InvalidFee
  | ExceededSlippage
  | ZeroTradingTokens
  | ConversionFailure
  | EmptySupply
  | InvalidSupply
  | InvalidInstruction
  | UninitializedAccount
  | InvalidAccountData
  | accountCheckFailed
  | overflowAbort
  | underflowAbort
  | divByZero
deriving DecidableEq, Repr

instance {α : Type} [DecidableEq α] : DecidableEq (Except SwapErr α) := fun a b =>
  match a, b with
  | .error x, .error y =>
    match decEq x y with
    | isTrue h => isTrue (h ▸ rfl)
    | isFalse h => isFalse (fun hh => h (Except.error.inj hh))
  | .ok x, .ok y =>
    match decEq x y with
    | isTrue h => isTrue (h ▸ rfl)
    | isFalse h => isFalse (fun hh => h (Except.ok.inj hh))
  | .error _, .ok _ => isFalse Except.noConfusion
  | .ok _, .error _ => isFalse Except.noConfusion

/-- Roles of the accounts that value-moving commands touch, named after the
variables of `processor.rs`. -/
inductive AcctRef
  | userSource
  | userDestination
  | swapSource
  | swapDestination
  | feeAccount
  | userSourceA
  | userSourceB
  | poolTokenA
  | poolTokenB
  | userPoolAccount
  | userDestA
  | userDestB
  | poolShareDestination
deriving DecidableEq, Repr

/-- Value-moving commands issued to the external token ledger
(`token_transfer`, `token_mint_to`, `token_burn` in `processor.rs`). -/
inductive Cmd
  | transfer (source destination : AcctRef) (amount : Nat)
  | mintTo (destination : AcctRef) (amount : Nat)
  | burn (source : AcctRef) (amount : Nat)
deriving DecidableEq, Repr

/-- Bound of the 64-bit unsigned integers. -/
def U64 : Nat := 2 ^ 64

/-- Bound of the 128-bit unsigned integers. -/
def U128 : Nat := 2 ^ 128

/-- Fee schedule (`Fees` in `fees.rs`): both fields are u64 in the source. -/
structure Fees where
  trade_fee_numerator : Nat
  trade_fee_denominator : Nat
deriving DecidableEq, Repr

/-- u128 `checked_mul` from `fees.rs`: `None` on overflow. -/
def checked_mul_u128 (a b : Nat) : Option Nat :=
  if a * b < U128 then some (a * b) else none

/-- u128 `checked_div` from `fees.rs`: `None` on a zero divisor. -/
def checked_div_u128 (a b : Nat) : Option Nat :=
  if b = 0 then none else some (a / b)

/-- `calculate_fee` from `fees.rs`: zero fee when the numerator or the amount
is zero, otherwise the floor of `amount * numerator / denominator` with a
minimum fee of one token; `none` when the checked u128 multiplication
overflows or the denominator is zero. -/
def calculate_fee (token_amount fee_numerator fee_denominator : Nat) : Option Nat :=
  if fee_numerator = 0 ∨ token_amount = 0 then
    some 0
  else
    match checked_mul_u128 token_amount fee_numerator with
    | none => none
    | some p =>
      match checked_div_u128 p fee_denominator with
      | none => none
      | some fee => if fee = 0 then some 1 else some fee

/-- `Fees::trading_fee` from `fees.rs` (the u64 → u128 conversions of the
source always succeed). -/
def Fees.trading_fee (fees : Fees) (trading_tokens : Nat) : Option Nat :=
  calculate_fee trading_tokens fees.trade_fee_numerator fees.trade_fee_denominator

/-- `validate_fraction` from `fees.rs`. -/
def validate_fraction (numerator denominator : Nat) : Except SwapErr Unit :=
  if denominator = 0 ∧ numerator = 0 then .ok ()
  else if numerator ≥ denominator then .error .InvalidFee
  else .ok ()

/-- `Fees::validate` from `fees.rs`. -/
def Fees.validate (fees : Fees) : Except SwapErr Unit :=
  validate_fraction fees.trade_fee_numerator fees.trade_fee_denominator

/-- Modelled from the spec: the crate's build profile is not under `src/`;
§9 of the spec requires arithmetic overflow to produce a distinct error
rather than silently wrap, so plain u64 multiplication aborts on overflow
(`none` here, surfaced as `SwapErr.overflowAbort`). -/
def u64_checked_mul (a b : Nat) : Option Nat :=
  if a * b < U64 then some (a * b) else none

/-- `validate_fees` from `constraints.rs`: accept only when the denominator
exceeds three times the numerator (`fees.trade_fee_denominator >
fees.trade_fee_numerator * 3`). -/
def validate_fees (fees : Fees) : Except SwapErr Unit :=
  match u64_checked_mul fees.trade_fee_numerator 3 with
  | none => .error .overflowAbort
  | some p => if fees.trade_fee_denominator > p then .ok () else .error .InvalidFee

/-- `validate_supply` from `constraints.rs`. -/
def validate_supply (token_a_amount token_b_amount : Nat) : Except SwapErr Unit :=
  if token_a_amount = 0 then .error .EmptySupply
  else if token_b_amount = 0 then .error .EmptySupply
  else .ok ()

/-- `to_u64` from `processor.rs`: narrowing a u128 value back to u64. -/
def to_u64 (val : Nat) : Except SwapErr Nat :=
  if val < U64 then .ok val else .error .ConversionFailure

/-- `INITIAL_SWAP_POOL_AMOUNT` from `processor.rs`. -/
def INITIAL_SWAP_POOL_AMOUNT : Nat := 1000000000

/-- `Processor::process_initialize` from `processor.rs`, reduced to the data
it reads: the length of the swap storage slot's data, the balances of the two
pool asset accounts, the pool-mint supply, and the fee schedule.
Account-identity/ownership/delegate/freeze checks are folded into
`account_checks_ok` (in the source they are interleaved strictly before the
fee validation and the mint command); the in-use check swallows any unpack
error of the slot, so a wrong-length slot passes it.  After the fixed initial
pool-share supply is minted to the externally owned destination, the new
record is committed with `SwapState::pack`, whose `Pack` wrapper fails with
`InvalidAccountData` when the slot's data length is not exactly 274 — the
one fallible step the source executes after a value-moving command. -/
def process_init_pool (account_checks_ok : Bool) (swap_slot_len : Nat)
    (token_a_amount token_b_amount : Nat)
    (pool_mint_supply : Nat) (fees : Fees) : List Cmd × Except SwapErr Unit :=
  if !account_checks_ok then ([], .error .accountCheckFailed)
  else
    match validate_supply token_a_amount token_b_amount with
    | .error e => ([], .error e)
    | .ok _ =>
      if pool_mint_supply ≠ 0 then ([], .error .InvalidSupply)
      else
        match fees.validate with
        | .error e => ([], .error e)
        | .ok _ =>
          match validate_fees fees with
          | .error e => ([], .error e)
          | .ok _ =>
            match to_u64 INITIAL_SWAP_POOL_AMOUNT with
            | .error e => ([], .error e)
            | .ok amt =>
              if swap_slot_len ≠ 274 then
                ([Cmd.mintTo .poolShareDestination amt], .error .InvalidAccountData)
              else
                ([Cmd.mintTo .poolShareDestination amt], .ok ())

/-- `Processor::process_deposit_tokens` from `processor.rs`, as a function of
the live token-A/token-B balances, the live pool-mint supply and the
instruction arguments.  When the supply is zero both the pool-token amount
and the divisor are replaced by `INITIAL_SWAP_POOL_AMOUNT`.  The u128
multiplications and divisions are modelled with the aborts the Rust
arithmetic would raise. -/
def process_deposit_tokens (account_checks_ok : Bool) (token_a_balance token_b_balance : Nat)
    (pool_mint_supply : Nat) (pool_token_amount maximum_token_a_amount maximum_token_b_amount : Nat) :
    List Cmd × Except SwapErr Unit :=
  if !account_checks_ok then ([], .error .accountCheckFailed)
  else
    let pt := if 0 < pool_mint_supply then pool_token_amount else INITIAL_SWAP_POOL_AMOUNT
    let sup := if 0 < pool_mint_supply then pool_mint_supply else INITIAL_SWAP_POOL_AMOUNT
    if U128 ≤ token_a_balance * pt then ([], .error .overflowAbort)
    else if sup = 0 then ([], .error .divByZero)
    else
      let token_a_amount128 := token_a_balance * pt / sup
      if U128 ≤ token_b_balance * pt then ([], .error .overflowAbort)
      else
        let token_b_amount128 := token_b_balance * pt / sup
        match to_u64 token_a_amount128 with
        | .error e => ([], .error e)
        | .ok token_a_amount =>
          if token_a_amount > maximum_token_a_amount then ([], .error .ExceededSlippage)
          else if token_a_amount = 0 then ([], .error .ZeroTradingTokens)
          else
            match to_u64 token_b_amount128 with
            | .error e => ([], .error e)
            | .ok token_b_amount =>
              if token_b_amount > maximum_token_b_amount then ([], .error .ExceededSlippage)
              else if token_b_amount = 0 then ([], .error .ZeroTradingTokens)
              else
                match to_u64 pt with
                | .error e => ([], .error e)
                | .ok ptc =>
                  ([Cmd.transfer .userSourceA .poolTokenA token_a_amount,
                    Cmd.transfer .userSourceB .poolTokenB token_b_amount,
                    Cmd.mintTo .poolShareDestination ptc], .ok ())

/-- `Processor::process_withdraw_tokens` from `processor.rs`: proportional
amounts are computed by u128 division by the live supply, narrowed to u64,
clamped by `min` to the held balance, checked against the minimum bounds and
the zero-trading-token condition; then the burn is issued first and each
asset transfer only when its amount is positive. -/
def process_withdraw_tokens (account_checks_ok : Bool) (token_a_balance token_b_balance : Nat)
    (pool_mint_supply : Nat) (pool_token_amount minimum_token_a_amount minimum_token_b_amount : Nat) :
    List Cmd × Except SwapErr Unit :=
  if !account_checks_ok then ([], .error .accountCheckFailed)
  else if U128 ≤ token_a_balance * pool_token_amount then ([], .error .overflowAbort)
  else if pool_mint_supply = 0 then ([], .error .divByZero)
  else
    let token_a_amount128 := token_a_balance * pool_token_amount / pool_mint_supply
    if U128 ≤ token_b_balance * pool_token_amount then ([], .error .overflowAbort)
    else
      let token_b_amount128 := token_b_balance * pool_token_amount / pool_mint_supply
      match to_u64 token_a_amount128 with
      | .error e => ([], .error e)
      | .ok a64 =>
        let token_a_amount := min token_a_balance a64
        if token_a_amount < minimum_token_a_amount then ([], .error .ExceededSlippage)
        else if token_a_amount = 0 ∧ token_a_balance ≠ 0 then ([], .error .ZeroTradingTokens)
        else
          match to_u64 token_b_amount128 with
          | .error e => ([], .error e)
          | .ok b64 =>
            let token_b_amount := min token_b_balance b64
            if token_b_amount < minimum_token_b_amount then ([], .error .ExceededSlippage)
            else if token_b_amount = 0 ∧ token_b_balance ≠ 0 then ([], .error .ZeroTradingTokens)
            else
              match to_u64 pool_token_amount with
              | .error e => ([], .error e)
              | .ok ptc =>
                ((Cmd.burn .userPoolAccount ptc ::
                    ((if token_a_amount > 0 then
                        [Cmd.transfer .poolTokenA .userDestA token_a_amount] else []) ++
                      (if token_b_amount > 0 then
                        [Cmd.transfer .poolTokenB .userDestB token_b_amount] else []))),
                  .ok ())

/-- `Processor::process_swap` from `processor.rs`: the trading fee is
`Fees::trading_fee` with `unwrap_or(0)`, the net input is deducted by u128
subtraction (abort on underflow), the constant-product output is
`y - x * y / (x + net)` with the aborts of the Rust u128 arithmetic, the
slippage check compares against `minimum_amount_out`, and on success the
three transfers are issued in source order with their u64 narrowings
happening between the commands exactly as in the source. -/
def process_swap (account_checks_ok : Bool) (fees : Fees)
    (swap_token_source_amount swap_token_dest_amount : Nat)
    (amount_in minimum_amount_out : Nat) : List Cmd × Except SwapErr Unit :=
  if !account_checks_ok then ([], .error .accountCheckFailed)
  else
    let trading_fees := (fees.trading_fee amount_in).getD 0
    if amount_in < trading_fees then ([], .error .underflowAbort)
    else
      let amount_in_net := amount_in - trading_fees
      if U128 ≤ swap_token_source_amount * swap_token_dest_amount then ([], .error .overflowAbort)
      else if U128 ≤ swap_token_source_amount + amount_in_net then ([], .error .overflowAbort)
      else if swap_token_source_amount + amount_in_net = 0 then ([], .error .divByZero)
      else
        let q := swap_token_source_amount * swap_token_dest_amount /
          (swap_token_source_amount + amount_in_net)
        if swap_token_dest_amount < q then ([], .error .underflowAbort)
        else
          let amount_out := swap_token_dest_amount - q
          if amount_out < minimum_amount_out then ([], .error .ExceededSlippage)
          else
            match to_u64 amount_in_net with
            | .error e => ([], .error e)
            | .ok a1 =>
              let t1 := Cmd.transfer .userSource .swapSource a1
              match to_u64 amount_out with
              | .error e => ([t1], .error e)
              | .ok a2 =>
                let t2 := Cmd.transfer .swapDestination .userDestination a2
                match to_u64 trading_fees with
                | .error e => ([t1, t2], .error e)
                | .ok a3 => ([t1, t2, Cmd.transfer .userSource .feeAccount a3], .ok ())

/-- Little-endian byte encoding of a natural number into `k` bytes
(`to_le_bytes` of the Rust integer types). -/
def natToLe : Nat → Nat → List Nat
  | 0, _ => []
  | k + 1, n => n % 256 :: natToLe k (n / 256)

/-- Little-endian byte decoding (`from_le_bytes` of the Rust integer types). -/
def natFromLe : List Nat → Nat
  | [] => 0
  | b :: bs => b + 256 * natFromLe bs

/-- Eight-byte little-endian encoding of a u64 value. -/
def u64_to_le (n : Nat) : List Nat := natToLe 8 n

/-- `Fees::pack_into_slice` from `fees.rs`: numerator then denominator,
each as eight little-endian bytes. -/
def Fees.pack_into (f : Fees) : List Nat :=
  u64_to_le f.trade_fee_numerator ++ u64_to_le f.trade_fee_denominator

/-- `Fees::unpack_from_slice` from `fees.rs` (the `array_ref!` needs at least
16 bytes; every caller in the source has checked the exact length). -/
def Fees.unpack_from_slice (bs : List Nat) : Except SwapErr Fees :=
  if 16 ≤ bs.length then
    .ok ⟨natFromLe (bs.take 8), natFromLe ((bs.drop 8).take 8)⟩
  else .error .InvalidAccountData

/-- Pool record (`SwapState` in `state.rs`); pubkeys are 32-byte lists. -/
structure SwapState where
  is_initialized : Bool
  bump_seed : Nat
  token_program_id : List Nat
  token_a : List Nat
  token_b : List Nat
  pool_mint : List Nat
  token_a_mint : List Nat
  token_b_mint : List Nat
  token_a_fee_account : List Nat
  token_b_fee_account : List Nat
  fees : Fees
deriving DecidableEq, Repr

/-- `SwapState::pack_into_slice` from `state.rs`: 274 bytes written in fixed
field order, the init flag as a single 0/1 byte. -/
def SwapState.pack_into (s : SwapState) : List Nat :=
  (if s.is_initialized then 1 else 0) :: s.bump_seed ::
    (s.token_program_id ++ s.token_a ++ s.token_b ++ s.pool_mint ++
      s.token_a_mint ++ s.token_b_mint ++ s.token_a_fee_account ++
      s.token_b_fee_account ++ s.fees.pack_into)

/-- Decoding of the init-flag byte in `SwapState::unpack_from_slice`
(`match is_initialized { [0] => false, [1] => true, _ => error }`). -/
def decode_init_byte : Nat → Option Bool
  | 0 => some false
  | 1 => some true
  | _ => none

/-- `SwapState::unpack_from_slice` from `state.rs`: field-wise decode, failing
with a structural error when the init byte is neither 0 nor 1. -/
def SwapState.unpack_from_slice (bs : List Nat) : Except SwapErr SwapState :=
  match bs with
  | b0 :: b1 :: rest =>
    if rest.length ≠ 272 then .error .InvalidAccountData
    else
      match decode_init_byte b0 with
      | none => .error .InvalidAccountData
      | some ini =>
        let k1 := rest.take 32
        let r1 := rest.drop 32
        let k2 := r1.take 32
        let r2 := r1.drop 32
        let k3 := r2.take 32
        let r3 := r2.drop 32
        let k4 := r3.take 32
        let r4 := r3.drop 32
        let k5 := r4.take 32
        let r5 := r4.drop 32
        let k6 := r5.take 32
        let r6 := r5.drop 32
        let k7 := r6.take 32
        let r7 := r6.drop 32
        let k8 := r7.take 32
        let r8 := r7.drop 32
        match Fees.unpack_from_slice (r8.take 16) with
        | .error e => .error e
        | .ok f => .ok ⟨ini, b1, k1, k2, k3, k4, k5, k6, k7, k8, f⟩
  | _ => .error .InvalidAccountData

/-- `Pack::unpack_unchecked` for `SwapState` (the trait wrapper documented in
§4.3 of the spec): length check plus field decode, no init-flag requirement. -/
def SwapState.unpack_unchecked (bs : List Nat) : Except SwapErr SwapState :=
  if bs.length ≠ 274 then .error .InvalidAccountData
  else SwapState.unpack_from_slice bs

/-- `Pack::unpack` for `SwapState` (the trait wrapper documented in §4.3 of
the spec): as `unpack_unchecked` but failing with `UninitializedAccount`
when the record's init flag is clear. -/
def SwapState.unpack (bs : List Nat) : Except SwapErr SwapState :=
  if bs.length ≠ 274 then .error .InvalidAccountData
  else
    match SwapState.unpack_from_slice bs with
    | .error e => .error e
    | .ok s => if s.is_initialized then .ok s else .error .UninitializedAccount

/-- Well-formed pool record: u8/u64 fields in range, pubkeys 32 bytes of
byte values. -/
def SwapState.wf (s : SwapState) : Prop :=
  s.bump_seed < 256 ∧
    s.token_program_id.length = 32 ∧ s.token_a.length = 32 ∧ s.token_b.length = 32 ∧
    s.pool_mint.length = 32 ∧ s.token_a_mint.length = 32 ∧ s.token_b_mint.length = 32 ∧
    s.token_a_fee_account.length = 32 ∧ s.token_b_fee_account.length = 32 ∧
    s.fees.trade_fee_numerator < U64 ∧ s.fees.trade_fee_denominator < U64

instance (s : SwapState) : Decidable s.wf := by
  unfold SwapState.wf; infer_instance

/-- Instruction variants (`SwapInstruction` in `instruction.rs`);
`initSwap` embeds the `Initialize` variant. -/
inductive SwapInstruction
  | initSwap (fees : Fees)
  | depositTokens (pool_token_amount maximum_token_a_amount maximum_token_b_amount : Nat)
  | withdrawTokens (pool_token_amount minimum_token_a_amount minimum_token_b_amount : Nat)
  | swap (amount_in minimum_amount_out : Nat)
deriving DecidableEq, Repr

/-- `SwapInstruction::pack` from `instruction.rs`: one tag byte followed by
the fixed-width little-endian fields. -/
def SwapInstruction.pack : SwapInstruction → List Nat
  | .initSwap f => 0 :: f.pack_into
  | .depositTokens p a b => 1 :: (u64_to_le p ++ u64_to_le a ++ u64_to_le b)
  | .withdrawTokens p a b => 2 :: (u64_to_le p ++ u64_to_le a ++ u64_to_le b)
  | .swap i o => 3 :: (u64_to_le i ++ u64_to_le o)

/-- `SwapInstruction::unpack_u64` from `instruction.rs`. -/
def unpack_u64 (input : List Nat) : Except SwapErr (Nat × List Nat) :=
  if 8 ≤ input.length then .ok (natFromLe (input.take 8), input.drop 8)
  else .error .InvalidInstruction

/-- `SwapInstruction::unpack` from `instruction.rs`: empty buffer, unknown
tag and truncated payload all fail with `InvalidInstruction`; the
`Initialize` payload must be exactly 16 bytes. -/
def SwapInstruction.unpack (input : List Nat) : Except SwapErr SwapInstruction :=
  match input with
  | [] => .error .InvalidInstruction
  | tag :: rest =>
    if tag = 0 then
      if rest.length = 16 then
        match Fees.unpack_from_slice rest with
        | .error e => .error e
        | .ok f => .ok (.initSwap f)
      else .error .InvalidInstruction
    else if tag = 1 then
      match unpack_u64 rest with
      | .error e => .error e
      | .ok (p, rest1) =>
        match unpack_u64 rest1 with
        | .error e => .error e
        | .ok (a, rest2) =>
          match unpack_u64 rest2 with
          | .error e => .error e
          | .ok (b, _) => .ok (.depositTokens p a b)
    else if tag = 2 then
      match unpack_u64 rest with
      | .error e => .error e
      | .ok (p, rest1) =>
        match unpack_u64 rest1 with
        | .error e => .error e
        | .ok (a, rest2) =>
          match unpack_u64 rest2 with
          | .error e => .error e
          | .ok (b, _) => .ok (.withdrawTokens p a b)
    else if tag = 3 then
      match unpack_u64 rest with
      | .error e => .error e
      | .ok (i, rest1) =>
        match unpack_u64 rest1 with
        | .error e => .error e
        | .ok (o, _) => .ok (.swap i o)
    else .error .InvalidInstruction

/-- Well-formed instruction: all u64 fields in range. -/
def SwapInstruction.wf : SwapInstruction → Prop
  | .initSwap f => f.trade_fee_numerator < U64 ∧ f.trade_fee_denominator < U64
  | .depositTokens p a b => p < U64 ∧ a < U64 ∧ b < U64
  | .withdrawTokens p a b => p < U64 ∧ a < U64 ∧ b < U64
  | .swap i o => i < U64 ∧ o < U64

instance (i : SwapInstruction) : Decidable i.wf := by
  cases i <;> (unfold SwapInstruction.wf; infer_instance)

/-- Live pool bookkeeping that the external token ledger holds for one pool:
the two asset balances and the pool-mint supply. -/
structure PoolSt where
  balA : Nat
  balB : Nat
  supply : Nat
deriving DecidableEq, Repr

/-- States of a pool reachable through the public interface, starting from a
successful pool creation (which mints the fixed initial supply) and stepping
by successful operations; the effect of each operation on balances and supply
is exactly the commands it issued, with the external ledger's feasibility
bounds (no balance overflow, burns covered by supply wired through the user's
pool account, transfers covered by the held balance). -/
inductive Reach (fees : Fees) : PoolSt → Prop
  | init (balA balB : Nat)
      (hrun : process_init_pool true 274 balA balB 0 fees =
        ([Cmd.mintTo .poolShareDestination INITIAL_SWAP_POOL_AMOUNT], .ok ()))
      (hA : balA < U64) (hB : balB < U64) :
      Reach fees ⟨balA, balB, INITIAL_SWAP_POOL_AMOUNT⟩
  | deposit (s : PoolSt) (pt maxA maxB reqA reqB mintAmt : Nat)
      (hs : Reach fees s)
      (hrun : process_deposit_tokens true s.balA s.balB s.supply pt maxA maxB =
        ([Cmd.transfer .userSourceA .poolTokenA reqA,
          Cmd.transfer .userSourceB .poolTokenB reqB,
          Cmd.mintTo .poolShareDestination mintAmt], .ok ()))
      (hA : s.balA + reqA < U64) (hB : s.balB + reqB < U64)
      (hS : s.supply + mintAmt < U64) :
      Reach fees ⟨s.balA + reqA, s.balB + reqB, s.supply + mintAmt⟩
  | withdraw (s : PoolSt) (pt minA minB amtA amtB : Nat)
      (hs : Reach fees s)
      (hrun : process_withdraw_tokens true s.balA s.balB s.supply pt minA minB =
        ((Cmd.burn .userPoolAccount pt ::
            ((if amtA > 0 then [Cmd.transfer .poolTokenA .userDestA amtA] else []) ++
              (if amtB > 0 then [Cmd.transfer .poolTokenB .userDestB amtB] else []))),
          .ok ()))
      (hpt : pt ≤ s.supply) (hA : amtA ≤ s.balA) (hB : amtB ≤ s.balB) :
      Reach fees ⟨s.balA - amtA, s.balB - amtB, s.supply - pt⟩
  | swapAtoB (s : PoolSt) (amount_in minOut net out fee : Nat)
      (hs : Reach fees s)
      (hrun : process_swap true fees s.balA s.balB amount_in minOut =
        ([Cmd.transfer .userSource .swapSource net,
          Cmd.transfer .swapDestination .userDestination out,
          Cmd.transfer .userSource .feeAccount fee], .ok ()))
      (hA : s.balA + net < U64) (hB : out ≤ s.balB) :
      Reach fees ⟨s.balA + net, s.balB - out, s.supply⟩
  | swapBtoA (s : PoolSt) (amount_in minOut net out fee : Nat)
      (hs : Reach fees s)
      (hrun : process_swap true fees s.balB s.balA amount_in minOut =
        ([Cmd.transfer .userSource .swapSource net,
          Cmd.transfer .swapDestination .userDestination out,
          Cmd.transfer .userSource .feeAccount fee], .ok ()))
      (hB : s.balB + net < U64) (hA : out ≤ s.balA) :
      Reach fees ⟨s.balA - out, s.balB + net, s.supply⟩

theorem natToLe_length (k n : Nat) : (natToLe k n).length = k := by
  induction k generalizing n with
  | zero => rfl
  | succ k ih => simp [natToLe, ih]

theorem natFromLe_natToLe (k n : Nat) : natFromLe (natToLe k n) = n % 256 ^ k := by
  induction k generalizing n with
  | zero => simp [natToLe, natFromLe, Nat.mod_one]
  | succ k ih => rw [natToLe, natFromLe, ih, pow_succ']; exact Nat.mod_mul.symm

theorem u64_to_le_length (n : Nat) : (u64_to_le n).length = 8 := natToLe_length 8 n

theorem natFromLe_u64_to_le (n : Nat) (h : n < U64) : natFromLe (u64_to_le n) = n := by
  have h8 : (256 : Nat) ^ 8 = U64 := by norm_num [U64]
  rw [u64_to_le, natFromLe_natToLe, h8]
  exact Nat.mod_eq_of_lt h

theorem take_exact (l : List Nat) (n : Nat) (h : l.length = n) : l.take n = l := by
  rw [← List.append_nil l, List.take_left' h, List.append_nil]

theorem unpack_u64_append (n : Nat) (rest : List Nat) (h : n < U64) :
    unpack_u64 (u64_to_le n ++ rest) = .ok (n, rest) := by
  have hlen : 8 ≤ (u64_to_le n ++ rest).length := by
    simp [List.length_append, u64_to_le_length]
  rw [unpack_u64, if_pos hlen, List.take_left' (u64_to_le_length n),
    List.drop_left' (u64_to_le_length n), natFromLe_u64_to_le n h]

theorem fees_pack_length (f : Fees) : f.pack_into.length = 16 := by
  simp [Fees.pack_into, List.length_append, u64_to_le_length]

theorem fees_unpack_pack (f : Fees) (hn : f.trade_fee_numerator < U64)
    (hd : f.trade_fee_denominator < U64) :
    Fees.unpack_from_slice f.pack_into = .ok f := by
  rcases f with ⟨n, d⟩
  rw [Fees.unpack_from_slice, if_pos (by simp [fees_pack_length])]
  rw [Fees.pack_into]
  rw [List.take_left' (u64_to_le_length n), List.drop_left' (u64_to_le_length n),
    take_exact _ _ (u64_to_le_length d), natFromLe_u64_to_le n hn, natFromLe_u64_to_le d hd]

theorem swapstate_pack_length (s : SwapState) (h : s.wf) : s.pack_into.length = 274 := by
  obtain ⟨hb, h1, h2, h3, h4, h5, h6, h7, h8, hn, hd⟩ := h
  simp [SwapState.pack_into, List.length_append, h1, h2, h3, h4, h5, h6, h7, h8,
    fees_pack_length]

theorem swapstate_unpack_from_slice_pack (s : SwapState) (h : s.wf) :
    SwapState.unpack_from_slice s.pack_into = .ok s := by
  rcases s with ⟨ini, bump, tpi, ta, tb, pm, tam, tbm, tfa, tfb, f⟩
  obtain ⟨hb, h1, h2, h3, h4, h5, h6, h7, h8, hn, hd⟩ := h
  cases ini <;>
    simp [SwapState.pack_into, SwapState.unpack_from_slice, decode_init_byte,
      List.length_append, h1, h2, h3, h4, h5, h6, h7, h8, fees_pack_length,
      List.take_left', List.drop_left', take_exact, fees_unpack_pack, hn, hd]

theorem swapstate_unpack_unchecked_pack (s : SwapState) (h : s.wf) :
    SwapState.unpack_unchecked s.pack_into = .ok s := by
  rw [SwapState.unpack_unchecked, if_neg (by simp [swapstate_pack_length s h]),
    swapstate_unpack_from_slice_pack s h]

theorem swapstate_unpack_pack (s : SwapState) (h : s.wf) (hini : s.is_initialized = true) :
    SwapState.unpack s.pack_into = .ok s := by
  rw [SwapState.unpack, if_neg (by simp [swapstate_pack_length s h]),
    swapstate_unpack_from_slice_pack s h]
  simp [hini]

theorem unpack_u64_exact (n : Nat) (h : n < U64) : unpack_u64 (u64_to_le n) = .ok (n, []) := by
  rw [← List.append_nil (u64_to_le n)]
  exact unpack_u64_append n [] h

theorem instr_unpack_pack (i : SwapInstruction) (h : i.wf) :
    SwapInstruction.unpack i.pack = .ok i := by
  cases i with
  | initSwap f =>
    obtain ⟨hn, hd⟩ := h
    simp [SwapInstruction.pack, SwapInstruction.unpack, fees_pack_length,
      fees_unpack_pack f hn hd]
  | depositTokens p a b =>
    obtain ⟨hp, ha, hb⟩ := h
    simp [SwapInstruction.pack, SwapInstruction.unpack, unpack_u64_append,
      unpack_u64_exact, hp, ha, hb]
  | withdrawTokens p a b =>
    obtain ⟨hp, ha, hb⟩ := h
    simp [SwapInstruction.pack, SwapInstruction.unpack, unpack_u64_append,
      unpack_u64_exact, hp, ha, hb]
  | swap i o =>
    obtain ⟨hi, ho⟩ := h
    simp [SwapInstruction.pack, SwapInstruction.unpack, unpack_u64_append,
      unpack_u64_exact, hi, ho]

theorem mul_lt_U128 {x y : Nat} (hx : x < U64) (hy : y < U64) : x * y < U128 := by
  have h := Nat.mul_lt_mul'' hx hy
  have he : U64 * U64 = U128 := by norm_num [U64, U128]
  omega

theorem add_lt_U128 {x y : Nat} (hx : x < U64) (hy : y < U64) : x + y < U128 := by
  have he : U64 + U64 ≤ U128 := by norm_num [U64, U128]
  omega

theorem calculate_fee_eq (a n d : Nat) (hmul : a * n < U128) (hd : d ≠ 0) :
    calculate_fee a n d =
      some (if n = 0 ∨ a = 0 then 0 else if a * n / d = 0 then 1 else a * n / d) := by
  by_cases h : n = 0 ∨ a = 0
  · simp [calculate_fee, h]
  · simp [calculate_fee, checked_mul_u128, checked_div_u128, h, hmul, hd]
    split <;> rfl

theorem fee_le_amount (a n d fee : Nat) (h3 : n * 3 < d)
    (hfee : calculate_fee a n d = some fee) : fee ≤ a := by
  have hd : d ≠ 0 := by omega
  by_cases hm : a * n < U128
  · rw [calculate_fee_eq a n d hm hd] at hfee
    injection hfee with hfee
    by_cases h : n = 0 ∨ a = 0
    · rw [if_pos h] at hfee
      omega
    · push_neg at h
      obtain ⟨hn, ha⟩ := h
      have hlt : a * n / d < a := by
        rw [Nat.div_lt_iff_lt_mul (by omega : 0 < d)]
        have hnd : n < d := by omega
        have := mul_lt_mul_of_pos_left hnd (by omega : 0 < a)
        omega
      rw [if_neg (by simp [hn, ha])] at hfee
      by_cases hz : a * n / d = 0
      · rw [if_pos hz] at hfee
        omega
      · rw [if_neg hz] at hfee
        omega
  · by_cases h : n = 0 ∨ a = 0
    · rw [calculate_fee, if_pos h] at hfee
      cases hfee
      exact Nat.zero_le a
    · rw [calculate_fee, if_neg h, checked_mul_u128, if_neg hm] at hfee
      exact Option.noConfusion hfee

theorem quot_le (x y net : Nat) (hx : 0 < x) : x * y / (x + net) ≤ y :=
  calc x * y / (x + net) ≤ x * y / x := Nat.div_le_div_left (Nat.le_add_right x net) hx
    _ = y := Nat.mul_div_cancel_left y hx

theorem validate_fees_ok_iff (n d : Nat) (hd : d < U64) :
    validate_fees ⟨n, d⟩ = .ok () ↔ n * 3 < d := by
  by_cases h : n * 3 < U64
  · rw [validate_fees, u64_checked_mul, if_pos h]
    constructor
    · intro hok
      by_cases h2 : d > n * 3
      · omega
      · simp [h2] at hok
    · intro h2
      simp [h2]
  · rw [validate_fees, u64_checked_mul, if_neg h]
    constructor
    · intro hok
      cases hok
    · intro h2
      omega

theorem swap_runs (n d x y amount_in minimum_amount_out fee : Nat)
    (hd : d < U64) (hval : validate_fees ⟨n, d⟩ = .ok ())
    (hx : x < U64) (hy : y < U64) (hxpos : 0 < x) (hin : amount_in < U64)
    (hfee : calculate_fee amount_in n d = some fee) :
    process_swap true ⟨n, d⟩ x y amount_in minimum_amount_out =
      (if y - x * y / (x + (amount_in - fee)) < minimum_amount_out then
        ([], .error .ExceededSlippage)
      else
        ([Cmd.transfer .userSource .swapSource (amount_in - fee),
          Cmd.transfer .swapDestination .userDestination
            (y - x * y / (x + (amount_in - fee))),
          Cmd.transfer .userSource .feeAccount fee], .ok ())) := by
  have h3 : n * 3 < d := (validate_fees_ok_iff n d hd).mp hval
  have hfa : fee ≤ amount_in := fee_le_amount amount_in n d fee h3 hfee
  have hq : x * y / (x + (amount_in - fee)) ≤ y := quot_le x y _ hxpos
  have c1 : ¬ (amount_in < fee) := by omega
  have c2 : ¬ (U128 ≤ x * y) := Nat.not_le.mpr (mul_lt_U128 hx hy)
  have c3 : ¬ (U128 ≤ x + (amount_in - fee)) :=
    Nat.not_le.mpr (add_lt_U128 hx (by omega : amount_in - fee < U64))
  have c4 : ¬ (x + (amount_in - fee) = 0) := by omega
  have c5 : ¬ (y < x * y / (x + (amount_in - fee))) := Nat.not_lt.mpr hq
  have c6 : amount_in - fee < U64 := lt_of_le_of_lt (Nat.sub_le _ _) hin
  have c7 : y - x * y / (x + (amount_in - fee)) < U64 :=
    lt_of_le_of_lt (Nat.sub_le _ _) hy
  have c8 : fee < U64 := by omega
  simp only [process_swap, Fees.trading_fee, hfee, Option.getD_some, to_u64,
    Bool.not_true, Bool.false_eq_true, if_false, ite_false, ite_true,
    c1, c2, c3, c4, c5, c6, c7, c8]

theorem INITIAL_lt_U64 : INITIAL_SWAP_POOL_AMOUNT < U64 := by
  norm_num [INITIAL_SWAP_POOL_AMOUNT, U64]

theorem INITIAL_ne_zero : ¬ (INITIAL_SWAP_POOL_AMOUNT = 0) := by
  norm_num [INITIAL_SWAP_POOL_AMOUNT]

theorem deposit_runs (balA balB supply pt maxA maxB : Nat)
    (hA : balA < U64) (hB : balB < U64) (hpt : pt < U64)
    (hra : balA * (if 0 < supply then pt else INITIAL_SWAP_POOL_AMOUNT) /
      (if 0 < supply then supply else INITIAL_SWAP_POOL_AMOUNT) < U64)
    (hrb : balB * (if 0 < supply then pt else INITIAL_SWAP_POOL_AMOUNT) /
      (if 0 < supply then supply else INITIAL_SWAP_POOL_AMOUNT) < U64) :
    process_deposit_tokens true balA balB supply pt maxA maxB =
      (let ptA := if 0 < supply then pt else INITIAL_SWAP_POOL_AMOUNT
       let sup := if 0 < supply then supply else INITIAL_SWAP_POOL_AMOUNT
       let reqA := balA * ptA / sup
       let reqB := balB * ptA / sup
       if reqA > maxA then ([], .error .ExceededSlippage)
       else if reqA = 0 then ([], .error .ZeroTradingTokens)
       else if reqB > maxB then ([], .error .ExceededSlippage)
       else if reqB = 0 then ([], .error .ZeroTradingTokens)
       else ([Cmd.transfer .userSourceA .poolTokenA reqA,
              Cmd.transfer .userSourceB .poolTokenB reqB,
              Cmd.mintTo .poolShareDestination ptA], .ok ())) := by
  by_cases hs : 0 < supply
  · simp only [hs, if_true, ite_true] at hra hrb ⊢
    have m1 : ¬ (U128 ≤ balA * pt) := Nat.not_le.mpr (mul_lt_U128 hA hpt)
    have m2 : ¬ (U128 ≤ balB * pt) := Nat.not_le.mpr (mul_lt_U128 hB hpt)
    have s0 : ¬ (supply = 0) := by omega
    simp only [process_deposit_tokens, to_u64, Bool.not_true, Bool.false_eq_true,
      if_false, ite_false, ite_true, hs, if_true, m1, m2, s0, hra, hrb, hpt]
  · simp only [hs, if_false, ite_false] at hra hrb ⊢
    have m1 : ¬ (U128 ≤ balA * INITIAL_SWAP_POOL_AMOUNT) :=
      Nat.not_le.mpr (mul_lt_U128 hA INITIAL_lt_U64)
    have m2 : ¬ (U128 ≤ balB * INITIAL_SWAP_POOL_AMOUNT) :=
      Nat.not_le.mpr (mul_lt_U128 hB INITIAL_lt_U64)
    simp only [process_deposit_tokens, to_u64, Bool.not_true, Bool.false_eq_true,
      if_false, ite_false, ite_true, hs, m1, m2, INITIAL_ne_zero, hra, hrb,
      INITIAL_lt_U64]

theorem withdraw_runs (balA balB supply pt minA minB : Nat)
    (hsup : 0 < supply) (hA : balA < U64) (hB : balB < U64) (hpt : pt < U64)
    (hra : balA * pt / supply < U64) (hrb : balB * pt / supply < U64) :
    process_withdraw_tokens true balA balB supply pt minA minB =
      (let amtA := min balA (balA * pt / supply)
       let amtB := min balB (balB * pt / supply)
       if amtA < minA then ([], .error .ExceededSlippage)
       else if amtA = 0 ∧ balA ≠ 0 then ([], .error .ZeroTradingTokens)
       else if amtB < minB then ([], .error .ExceededSlippage)
       else if amtB = 0 ∧ balB ≠ 0 then ([], .error .ZeroTradingTokens)
       else (Cmd.burn .userPoolAccount pt ::
          ((if amtA > 0 then [Cmd.transfer .poolTokenA .userDestA amtA] else []) ++
            (if amtB > 0 then [Cmd.transfer .poolTokenB .userDestB amtB] else [])),
          .ok ())) := by
  have m1 : ¬ (U128 ≤ balA * pt) := Nat.not_le.mpr (mul_lt_U128 hA hpt)
  have m2 : ¬ (U128 ≤ balB * pt) := Nat.not_le.mpr (mul_lt_U128 hB hpt)
  have s0 : ¬ (supply = 0) := by omega
  simp only [process_withdraw_tokens, to_u64, Bool.not_true, Bool.false_eq_true,
    if_false, ite_false, ite_true, m1, m2, s0, hra, hrb, hpt]

set_option maxHeartbeats 1600000 in
theorem init_trace_cases (ok : Bool) (a b s : Nat) (f : Fees) :
    (process_init_pool ok 274 a b s f).1 = [] ∨
      (process_init_pool ok 274 a b s f).2 = .ok () := by
  simp only [process_init_pool, to_u64]
  repeat' split
  all_goals first
    | (left; rfl)
    | (right; rfl)
    | (exfalso; omega)

set_option maxHeartbeats 1600000 in
theorem deposit_trace_cases (ok : Bool) (balA balB supply pt maxA maxB : Nat) :
    (process_deposit_tokens ok balA balB supply pt maxA maxB).1 = [] ∨
      (process_deposit_tokens ok balA balB supply pt maxA maxB).2 = .ok () := by
  simp only [process_deposit_tokens, to_u64]
  repeat' split
  all_goals first
    | (left; rfl)
    | (right; rfl)

set_option maxHeartbeats 1600000 in
theorem withdraw_trace_cases (ok : Bool) (balA balB supply pt minA minB : Nat) :
    (process_withdraw_tokens ok balA balB supply pt minA minB).1 = [] ∨
      (process_withdraw_tokens ok balA balB supply pt minA minB).2 = .ok () := by
  simp only [process_withdraw_tokens, to_u64]
  repeat' split
  all_goals first
    | (left; rfl)
    | (right; rfl)

set_option maxHeartbeats 1600000 in
theorem swap_trace_cases (ok : Bool) (fees : Fees) (x y amount_in minOut : Nat)
    (hy : y < U64) (hin : amount_in < U64) :
    (process_swap ok fees x y amount_in minOut).1 = [] ∨
      (process_swap ok fees x y amount_in minOut).2 = .ok () := by
  have hs1 : amount_in - (fees.trading_fee amount_in).getD 0 ≤ amount_in := Nat.sub_le _ _
  have hs2 : y - x * y / (x + (amount_in - (fees.trading_fee amount_in).getD 0)) ≤ y :=
    Nat.sub_le _ _
  simp only [process_swap, to_u64]
  repeat' split
  all_goals first
    | (left; rfl)
    | (right; rfl)
    | (rename_i heq; split at heq
       · cases heq
       · exfalso; omega)

set_option maxHeartbeats 1600000 in
theorem deposit_no_div0 (ok : Bool) (balA balB supply pt maxA maxB : Nat) :
    (process_deposit_tokens ok balA balB supply pt maxA maxB).2 ≠ .error .divByZero := by
  have hsup' : ¬ ((if 0 < supply then supply else INITIAL_SWAP_POOL_AMOUNT) = 0) := by
    split
    · omega
    · exact INITIAL_ne_zero
  simp only [process_deposit_tokens, to_u64, hsup', ite_false, if_false]
  repeat' split
  all_goals first
    | (intro h; exact Except.noConfusion h)
    | (intro h; exact SwapErr.noConfusion (Except.error.inj h))
    | (rename_i heq; split at heq
       · cases heq
       · cases heq
         intro h
         exact SwapErr.noConfusion (Except.error.inj h))

set_option maxHeartbeats 1600000 in
theorem withdraw_no_div0 (ok : Bool) (balA balB supply pt minA minB : Nat)
    (hsup : 0 < supply) :
    (process_withdraw_tokens ok balA balB supply pt minA minB).2 ≠ .error .divByZero := by
  have s0 : ¬ (supply = 0) := by omega
  simp only [process_withdraw_tokens, to_u64, s0, ite_false, if_false]
  repeat' split
  all_goals first
    | (intro h; exact Except.noConfusion h)
    | (intro h; exact SwapErr.noConfusion (Except.error.inj h))
    | (rename_i heq; split at heq
       · cases heq
       · cases heq
         intro h
         exact SwapErr.noConfusion (Except.error.inj h))

set_option maxHeartbeats 1600000 in
theorem swap_no_div0 (ok : Bool) (fees : Fees) (x y amount_in minOut : Nat)
    (hx : 0 < x) :
    (process_swap ok fees x y amount_in minOut).2 ≠ .error .divByZero := by
  have hx0 : ¬ (x = 0) := by omega
  simp only [process_swap, to_u64, Nat.add_eq_zero, hx0, false_and, ite_false, if_false]
  repeat' split
  all_goals first
    | (intro h; exact Except.noConfusion h)
    | (intro h; exact SwapErr.noConfusion (Except.error.inj h))
    | (rename_i heq; split at heq
       · cases heq
       · cases heq
         intro h
         exact SwapErr.noConfusion (Except.error.inj h))

/-- C1: for every initialized pool (fee schedule accepted by `validate_fees`,
u64-ranged fields, swap-source balance `x > 0`), `process_swap` computes
`fee = calculate_fee(amount_in, n, d)`, `net = amount_in - fee` and
`amount_out = y - floor(x*y / (x + net))`; it fails with `ExceededSlippage`
exactly when `amount_out < minimum_amount_out`, and on success the transfer
issued from the pool to the caller carries exactly `amount_out`. -/
theorem swap_formula_correct (n d x y amount_in minimum_amount_out fee : Nat)
    (hd : d < U64) (hval : validate_fees ⟨n, d⟩ = .ok ())
    (hx : x < U64) (hy : y < U64) (hxpos : 0 < x) (hin : amount_in < U64)
    (hfee : calculate_fee amount_in n d = some fee) :
    process_swap true ⟨n, d⟩ x y amount_in minimum_amount_out =
      (if y - x * y / (x + (amount_in - fee)) < minimum_amount_out then
        ([], .error .ExceededSlippage)
      else
        ([Cmd.transfer .userSource .swapSource (amount_in - fee),
          Cmd.transfer .swapDestination .userDestination
            (y - x * y / (x + (amount_in - fee))),
          Cmd.transfer .userSource .feeAccount fee], .ok ())) :=
  swap_runs n d x y amount_in minimum_amount_out fee hd hval hx hy hxpos hin hfee

theorem swap_formula_correct_witness :
    process_swap true ⟨1, 100⟩ 1000 1000 100 0 =
      ([Cmd.transfer .userSource .swapSource 99,
        Cmd.transfer .swapDestination .userDestination 91,
        Cmd.transfer .userSource .feeAccount 1], .ok ()) := by
  have h := swap_formula_correct 1 100 1000 1000 100 0 1 (by decide) (by decide)
    (by decide) (by decide) (by decide) (by decide) (by decide)
  simpa using h

/-- C2 (counterexample): on pool balances x = y = 1000 with fee schedule
1/100 and `amount_in = 100`, the swap with `minimum_amount_out = 91`
succeeds, while the claim says it fails with the slippage error (the
spec miscomputed `floor(1000*1000/1099)` as 910; it is 909, so the
output is 91, not 90). -/
theorem swap_example_claim_false :
    (process_swap true ⟨1, 100⟩ 1000 1000 100 91).2 = .ok () ∧
      (process_swap true ⟨1, 100⟩ 1000 1000 100 91).2 ≠ .error .ExceededSlippage := by
  constructor
  · decide
  · decide

/-- C2 (amended): with x = y = 1000, fee 1/100 and `amount_in = 100` the fee
is 1, the net input 99, and `amount_out = 1000 - floor(1000*1000/1099) =
1000 - 909 = 91`; calls with `minimum_amount_out` 90 or 91 succeed and a
call with 92 fails with `ExceededSlippage`. -/
theorem swap_example_amended :
    calculate_fee 100 1 100 = some 1 ∧
    process_swap true ⟨1, 100⟩ 1000 1000 100 90 =
      ([Cmd.transfer .userSource .swapSource 99,
        Cmd.transfer .swapDestination .userDestination 91,
        Cmd.transfer .userSource .feeAccount 1], .ok ()) ∧
    process_swap true ⟨1, 100⟩ 1000 1000 100 91 =
      ([Cmd.transfer .userSource .swapSource 99,
        Cmd.transfer .swapDestination .userDestination 91,
        Cmd.transfer .userSource .feeAccount 1], .ok ()) ∧
    process_swap true ⟨1, 100⟩ 1000 1000 100 92 = ([], .error .ExceededSlippage) := by
  refine ⟨by decide, by decide, by decide, by decide⟩

/-- C3 (counterexample): on an initialized pool with supply 1 and token-A
balance 2, a deposit of `pool_token_amount = 2^63` computes a required
token-A amount `2*2^63/1 = 2^64` that exceeds the max bound 5, yet the
operation fails with `ConversionFailure` (u128 → u64 narrowing), not with
`ExceededSlippage` as the claim states. -/
theorem deposit_slippage_claim_false :
    (0 : Nat) < 1 ∧ 5 < 2 * 2 ^ 63 / 1 ∧
    (process_deposit_tokens true 2 2 1 (2 ^ 63) 5 (2 ^ 63)).2 = .error .ConversionFailure ∧
    (process_deposit_tokens true 2 2 1 (2 ^ 63) 5 (2 ^ 63)).2 ≠ .error .ExceededSlippage := by
  refine ⟨by decide, by decide, by decide, by decide⟩

/-- C3 (amended): for every deposit on an initialized pool whose proportional
amounts fit in u64, `process_deposit_tokens` computes
`required = floor(balance * pool_token_amount / supply)` for each side (with
both `pool_token_amount` and the divisor replaced by the fixed constant
1,000,000,000 when the supply is zero, regardless of the caller's value),
fails with `ExceededSlippage` when a required amount exceeds its max bound,
fails with `ZeroTradingTokens` when a required amount is zero, and on
success transfers the two required amounts into the pool and mints the
pool-token amount to the caller. -/
theorem deposit_tokens_spec (balA balB supply pt maxA maxB : Nat)
    (hA : balA < U64) (hB : balB < U64) (hpt : pt < U64)
    (hra : balA * (if 0 < supply then pt else INITIAL_SWAP_POOL_AMOUNT) /
      (if 0 < supply then supply else INITIAL_SWAP_POOL_AMOUNT) < U64)
    (hrb : balB * (if 0 < supply then pt else INITIAL_SWAP_POOL_AMOUNT) /
      (if 0 < supply then supply else INITIAL_SWAP_POOL_AMOUNT) < U64) :
    process_deposit_tokens true balA balB supply pt maxA maxB =
      (let ptA := if 0 < supply then pt else INITIAL_SWAP_POOL_AMOUNT
       let sup := if 0 < supply then supply else INITIAL_SWAP_POOL_AMOUNT
       let reqA := balA * ptA / sup
       let reqB := balB * ptA / sup
       if reqA > maxA then ([], .error .ExceededSlippage)
       else if reqA = 0 then ([], .error .ZeroTradingTokens)
       else if reqB > maxB then ([], .error .ExceededSlippage)
       else if reqB = 0 then ([], .error .ZeroTradingTokens)
       else ([Cmd.transfer .userSourceA .poolTokenA reqA,
              Cmd.transfer .userSourceB .poolTokenB reqB,
              Cmd.mintTo .poolShareDestination ptA], .ok ())) :=
  deposit_runs balA balB supply pt maxA maxB hA hB hpt hra hrb

theorem deposit_tokens_spec_witness :
    process_deposit_tokens true 1000 2000 1000000000 500000000 600 1200 =
      ([Cmd.transfer .userSourceA .poolTokenA 500,
        Cmd.transfer .userSourceB .poolTokenB 1000,
        Cmd.mintTo .poolShareDestination 500000000], .ok ()) := by
  have h := deposit_tokens_spec 1000 2000 1000000000 500000000 600 1200
    (by decide) (by decide) (by decide) (by decide) (by decide)
  simpa using h

/-- C4 (counterexample): on an initialized pool with supply 1 and balances
1000/1000, a withdrawal of `pool_token_amount = 2^55` would clamp the
token-A amount `floor(1000*2^55/1)` to the balance 1000 according to the
claim (passing the minimum bounds 0 and the zero checks), but the code
fails with `ConversionFailure` before clamping. -/
theorem withdraw_clamp_claim_false :
    min 1000 (1000 * 2 ^ 55 / 1) = 1000 ∧ (0 : Nat) < 1 ∧
    (process_withdraw_tokens true 1000 1000 1 (2 ^ 55) 0 0).2 = .error .ConversionFailure ∧
    (process_withdraw_tokens true 1000 1000 1 (2 ^ 55) 0 0).2 ≠ .ok () := by
  refine ⟨by decide, by decide, by decide, by decide⟩

/-- C4 (amended): for every withdrawal on an initialized pool with positive
supply whose proportional amounts fit in u64, each token amount is
`floor(balance * pool_token_amount / supply)` clamped by `min` to the held
balance (clamping is not an error); the operation fails with
`ExceededSlippage` when a clamped amount is below its minimum bound, fails
with `ZeroTradingTokens` when a clamped amount is zero while that side's
balance is nonzero, and on success issues the burn of `pool_token_amount`
first and each asset transfer only when its clamped amount is positive. -/
theorem withdraw_tokens_spec (balA balB supply pt minA minB : Nat)
    (hsup : 0 < supply) (hA : balA < U64) (hB : balB < U64) (hpt : pt < U64)
    (hra : balA * pt / supply < U64) (hrb : balB * pt / supply < U64) :
    process_withdraw_tokens true balA balB supply pt minA minB =
      (let amtA := min balA (balA * pt / supply)
       let amtB := min balB (balB * pt / supply)
       if amtA < minA then ([], .error .ExceededSlippage)
       else if amtA = 0 ∧ balA ≠ 0 then ([], .error .ZeroTradingTokens)
       else if amtB < minB then ([], .error .ExceededSlippage)
       else if amtB = 0 ∧ balB ≠ 0 then ([], .error .ZeroTradingTokens)
       else (Cmd.burn .userPoolAccount pt ::
          ((if amtA > 0 then [Cmd.transfer .poolTokenA .userDestA amtA] else []) ++
            (if amtB > 0 then [Cmd.transfer .poolTokenB .userDestB amtB] else [])),
          .ok ())) :=
  withdraw_runs balA balB supply pt minA minB hsup hA hB hpt hra hrb

theorem withdraw_tokens_spec_witness :
    process_withdraw_tokens true 1000 2000 1000000000 500000000 0 0 =
      ([Cmd.burn .userPoolAccount 500000000,
        Cmd.transfer .poolTokenA .userDestA 500,
        Cmd.transfer .poolTokenB .userDestB 1000], .ok ()) := by
  have h := withdraw_tokens_spec 1000 2000 1000000000 500000000 0 0
    (by decide) (by decide) (by decide) (by decide) (by decide) (by decide)
  simpa using h

/-- C5 (counterexample): a state with both balances and the pool-mint supply
zero is reachable through the public interface (create the pool, then
withdraw the full pool-token supply), and on that state `process_withdraw_tokens`
executes its division with a zero divisor (the live supply), i.e. the
division is not guarded by construction. -/
theorem div_by_zero_reachable :
    Reach ⟨1, 100⟩ ⟨0, 0, 0⟩ ∧
      (process_withdraw_tokens true 0 0 0 0 0 0).2 = .error .divByZero := by
  refine ⟨?_, by decide⟩
  have h1 : Reach ⟨1, 100⟩ ⟨1000, 1000, INITIAL_SWAP_POOL_AMOUNT⟩ :=
    Reach.init 1000 1000 (by decide) (by decide) (by decide)
  have h2 := Reach.withdraw ⟨1000, 1000, INITIAL_SWAP_POOL_AMOUNT⟩
    INITIAL_SWAP_POOL_AMOUNT 0 0 1000 1000 h1 (by decide) (by decide) (by decide)
    (by decide)
  exact h2

/-- C5 (amended): the division in `process_deposit_tokens` is guarded by
construction (its divisor is the supply when positive and the nonzero
bootstrap constant otherwise); the divisions in `process_swap` and
`process_withdraw_tokens` are guarded only under the preconditions that the
swap-source balance, respectively the pool-mint supply, is positive — both
of which can be violated on reachable states after a full withdrawal. -/
theorem division_guard_amended :
    (∀ (ok : Bool) (balA balB supply pt maxA maxB : Nat),
      (process_deposit_tokens ok balA balB supply pt maxA maxB).2 ≠ .error .divByZero) ∧
    (∀ (ok : Bool) (fees : Fees) (x y amount_in minOut : Nat), 0 < x →
      (process_swap ok fees x y amount_in minOut).2 ≠ .error .divByZero) ∧
    (∀ (ok : Bool) (balA balB supply pt minA minB : Nat), 0 < supply →
      (process_withdraw_tokens ok balA balB supply pt minA minB).2 ≠ .error .divByZero) :=
  ⟨fun ok a b s p mA mB => deposit_no_div0 ok a b s p mA mB,
   fun ok fees x y aIn mO hx => swap_no_div0 ok fees x y aIn mO hx,
   fun ok a b s p mA mB hs => withdraw_no_div0 ok a b s p mA mB hs⟩

theorem division_guard_amended_witness :
    (process_deposit_tokens true 3 3 7 5 9 9).2 ≠ .error .divByZero ∧
    (process_swap true ⟨1, 100⟩ 5 5 3 0).2 ≠ .error .divByZero ∧
    (process_withdraw_tokens true 5 5 7 3 0 0).2 ≠ .error .divByZero :=
  ⟨division_guard_amended.1 true 3 3 7 5 9 9,
   division_guard_amended.2.1 true ⟨1, 100⟩ 5 5 3 0 (by decide),
   division_guard_amended.2.2 true 5 5 7 3 0 0 (by decide)⟩

/-- C6 (counterexample): `calculate_fee` is not equal to the floor formula on
all of its u128 domain: at amount `2^127`, numerator 2, denominator 3 the
checked multiplication overflows and the function returns `none`, not
`floor(2^127 * 2 / 3)`, although numerator and amount are nonzero. -/
theorem calculate_fee_claim_false :
    ¬ ((2 : Nat) = 0 ∨ (2 : Nat) ^ 127 = 0) ∧
    calculate_fee (2 ^ 127) 2 3 = none ∧
    calculate_fee (2 ^ 127) 2 3 ≠ some (2 ^ 127 * 2 / 3) := by
  refine ⟨by decide, by decide, by decide⟩

/-- C6 (amended): `calculate_fee` returns 0 when the numerator or the amount
is zero; otherwise, provided `amount * numerator < 2^128` and the
denominator is nonzero, it returns `floor(amount * numerator / denominator)`
with a minimum fee of 1 when that floor is 0; the claimed instances hold:
`calculate_fee(1000,1,100) = 10`, `calculate_fee(50,1,100) = 1`,
`calculate_fee(0,1,100) = 0` and `calculate_fee(x,0,d) = 0`. -/
theorem calculate_fee_spec :
    (∀ a n d : Nat, a * n < U128 → d ≠ 0 →
      calculate_fee a n d =
        some (if n = 0 ∨ a = 0 then 0 else if a * n / d = 0 then 1 else a * n / d)) ∧
    (∀ x d : Nat, calculate_fee x 0 d = some 0) ∧
    calculate_fee 1000 1 100 = some 10 ∧
    calculate_fee 50 1 100 = some 1 ∧
    calculate_fee 0 1 100 = some 0 :=
  ⟨calculate_fee_eq, fun x d => by simp [calculate_fee], by decide, by decide, by decide⟩

theorem calculate_fee_spec_witness :
    calculate_fee 1000 1 100 =
      some (if (1 : Nat) = 0 ∨ (1000 : Nat) = 0 then 0
        else if 1000 * 1 / 100 = 0 then 1 else 1000 * 1 / 100) :=
  calculate_fee_spec.1 1000 1 100 (by decide) (by decide)

/-- C7: for every u64 fee schedule, `validate_fees` accepts exactly when the
denominator exceeds three times the numerator; `(1,4)` is accepted, `(1,3)`
is rejected with `InvalidFee`; the check is applied during pool creation
(`process_init_pool` rejects `(1,3)`) but not on a swap (`process_swap`
runs to completion under the schedule `(1,3)` that `validate_fees` rejects). -/
theorem validate_fees_iff :
    (∀ n d : Nat, d < U64 → (validate_fees ⟨n, d⟩ = .ok () ↔ n * 3 < d)) ∧
    validate_fees ⟨1, 4⟩ = .ok () ∧
    validate_fees ⟨1, 3⟩ = .error .InvalidFee ∧
    (∀ slot_len : Nat,
      process_init_pool true slot_len 1000 1000 0 ⟨1, 3⟩ = ([], .error .InvalidFee)) ∧
    (process_swap true ⟨1, 3⟩ 1000 1000 9 0).2 = .ok () :=
  ⟨fun n d hd => validate_fees_ok_iff n d hd, by decide, by decide,
   fun _ => rfl, by decide⟩

theorem validate_fees_iff_witness :
    validate_fees ⟨1, 4⟩ = .ok () ↔ 1 * 3 < 4 :=
  validate_fees_iff.1 1 4 (by decide)

/-- C8 (counterexample): Initialize violates error-before-command: a swap
storage slot of the wrong data length (here 0) passes every prior check —
the in-use check swallows the unpack error — so the initial-supply mint is
issued and only then does the `SwapState::pack` commit fail with
`InvalidAccountData`, leaving an error result with a nonempty command
trace. -/
theorem init_pack_after_mint :
    process_init_pool true 0 1000 1000 0 ⟨1, 100⟩ =
      ([Cmd.mintTo .poolShareDestination INITIAL_SWAP_POOL_AMOUNT],
        .error .InvalidAccountData) ∧
    (process_init_pool true 0 1000 1000 0 ⟨1, 100⟩).1 ≠ [] := by
  refine ⟨by decide, by decide⟩

/-- C8 (amended): for DepositTokens, WithdrawTokens and Swap, any error
result is produced before the first value-moving command: whenever the
result is an error, the list of issued commands is empty (for the swap this
includes the u64 narrowings of the output and fee amounts, which happen
after the first transfer in the source but cannot fail when the balances and
input are u64 values).  For Initialize the same holds provided the swap
storage slot has the correct 274-byte length; a wrong-length slot makes the
final `SwapState::pack` commit fail with `InvalidAccountData` after the
initial mint has been issued. -/
theorem errors_before_commands :
    (∀ (ok : Bool) (slot_len balA balB supply : Nat) (fees : Fees) (e : SwapErr),
      slot_len = 274 →
      (process_init_pool ok slot_len balA balB supply fees).2 = .error e →
      (process_init_pool ok slot_len balA balB supply fees).1 = []) ∧
    (∀ (ok : Bool) (balA balB supply pt maxA maxB : Nat) (e : SwapErr),
      (process_deposit_tokens ok balA balB supply pt maxA maxB).2 = .error e →
      (process_deposit_tokens ok balA balB supply pt maxA maxB).1 = []) ∧
    (∀ (ok : Bool) (balA balB supply pt minA minB : Nat) (e : SwapErr),
      (process_withdraw_tokens ok balA balB supply pt minA minB).2 = .error e →
      (process_withdraw_tokens ok balA balB supply pt minA minB).1 = []) ∧
    (∀ (ok : Bool) (fees : Fees) (x y amount_in minOut : Nat) (e : SwapErr),
      y < U64 → amount_in < U64 →
      (process_swap ok fees x y amount_in minOut).2 = .error e →
      (process_swap ok fees x y amount_in minOut).1 = []) := by
  refine ⟨?_, ?_, ?_, ?_⟩
  · intro ok slot_len a b s f e hlen h
    subst hlen
    rcases init_trace_cases ok a b s f with he | hok
    · exact he
    · rw [h] at hok
      exact Except.noConfusion hok
  · intro ok a b s p mA mB e h
    rcases deposit_trace_cases ok a b s p mA mB with he | hok
    · exact he
    · rw [h] at hok
      exact Except.noConfusion hok
  · intro ok a b s p mA mB e h
    rcases withdraw_trace_cases ok a b s p mA mB with he | hok
    · exact he
    · rw [h] at hok
      exact Except.noConfusion hok
  · intro ok fees x y aIn mO e hy hin h
    rcases swap_trace_cases ok fees x y aIn mO hy hin with he | hok
    · exact he
    · rw [h] at hok
      exact Except.noConfusion hok

theorem errors_before_commands_witness :
    (process_swap true ⟨1, 100⟩ 1000 1000 100 1000000).1 = [] :=
  errors_before_commands.2.2.2 true ⟨1, 100⟩ 1000 1000 100 1000000
    .ExceededSlippage (by decide) (by decide) (by decide)

set_option maxRecDepth 100000 in
/-- C9 (counterexample): the checked `unpack` does not round-trip every
`SwapState` value: packing a record whose init flag is clear and unpacking
it yields `UninitializedAccount`, not the record. -/
theorem swapstate_roundtrip_claim_false :
    SwapState.unpack (SwapState.pack_into
      ⟨false, 0, List.replicate 32 0, List.replicate 32 0, List.replicate 32 0,
        List.replicate 32 0, List.replicate 32 0, List.replicate 32 0,
        List.replicate 32 0, List.replicate 32 0, ⟨0, 0⟩⟩) ≠
      .ok ⟨false, 0, List.replicate 32 0, List.replicate 32 0, List.replicate 32 0,
        List.replicate 32 0, List.replicate 32 0, List.replicate 32 0,
        List.replicate 32 0, List.replicate 32 0, ⟨0, 0⟩⟩ := by
  decide

/-- C9 (amended): serialization round-trips losslessly for every u64-ranged
`Fees` value and every `SwapInstruction` variant; a well-formed `SwapState`
packs to exactly 274 bytes and round-trips under the checked `unpack` when
its init flag is set, and under `unpack_unchecked` unconditionally. -/
theorem serialization_roundtrip :
    (∀ f : Fees, f.trade_fee_numerator < U64 → f.trade_fee_denominator < U64 →
      Fees.unpack_from_slice f.pack_into = .ok f) ∧
    (∀ s : SwapState, s.wf → s.is_initialized = true →
      SwapState.unpack s.pack_into = .ok s) ∧
    (∀ s : SwapState, s.wf → SwapState.unpack_unchecked s.pack_into = .ok s) ∧
    (∀ s : SwapState, s.wf → s.pack_into.length = 274) ∧
    (∀ i : SwapInstruction, i.wf → SwapInstruction.unpack i.pack = .ok i) :=
  ⟨fun f hn hd => fees_unpack_pack f hn hd,
   fun s h hi => swapstate_unpack_pack s h hi,
   fun s h => swapstate_unpack_unchecked_pack s h,
   fun s h => swapstate_pack_length s h,
   fun i h => instr_unpack_pack i h⟩

theorem serialization_roundtrip_witness :
    Fees.unpack_from_slice (Fees.pack_into ⟨1, 4⟩) = .ok ⟨1, 4⟩ ∧
    SwapState.unpack (SwapState.pack_into
      ⟨true, 255, List.replicate 32 1, List.replicate 32 2, List.replicate 32 3,
        List.replicate 32 4, List.replicate 32 5, List.replicate 32 6,
        List.replicate 32 7, List.replicate 32 8, ⟨1, 4⟩⟩) =
      .ok ⟨true, 255, List.replicate 32 1, List.replicate 32 2, List.replicate 32 3,
        List.replicate 32 4, List.replicate 32 5, List.replicate 32 6,
        List.replicate 32 7, List.replicate 32 8, ⟨1, 4⟩⟩ ∧
    SwapInstruction.unpack (SwapInstruction.pack (.depositTokens 5 10 20)) =
      .ok (.depositTokens 5 10 20) :=
  ⟨serialization_roundtrip.1 ⟨1, 4⟩ (by decide) (by decide),
   serialization_roundtrip.2.1 _ (by decide) rfl,
   serialization_roundtrip.2.2.2.2 _ (by decide)⟩

/-- C10 (counterexample): the fee schedule `(0, 1)` — zero numerator, hence a
no-fee schedule — passes both `Fees::validate` and `validate_fees`
(`1 > 0*3`), so pool creation succeeds with it and every trade under it
pays zero fee; the claim that every successfully initialized pool charges a
nonzero trading fee is false. -/
theorem zero_fee_pool_possible :
    Fees.validate ⟨0, 1⟩ = .ok () ∧
    validate_fees ⟨0, 1⟩ = .ok () ∧
    process_init_pool true 274 1000 1000 0 ⟨0, 1⟩ =
      ([Cmd.mintTo .poolShareDestination INITIAL_SWAP_POOL_AMOUNT], .ok ()) ∧
    Fees.trading_fee ⟨0, 1⟩ 12345 = some 0 := by
  refine ⟨by decide, by decide, by decide, by decide⟩

/-- C10 (amended): an otherwise-valid Initialize carrying the schedule
`(0, 0)` fails with `InvalidFee` — it passes `Fees::validate` but is
rejected by `validate_fees` since `0 > 0*3` is false — so no pool can be
created with the `(0, 0)` schedule; however a schedule with zero numerator
and positive denominator such as `(0, 1)` passes both validators, so a
successfully initialized pool can still charge a zero trading fee. -/
theorem init_fee_schedule_spec :
    (∀ slot_len balA balB : Nat, 0 < balA → 0 < balB →
      process_init_pool true slot_len balA balB 0 ⟨0, 0⟩ = ([], .error .InvalidFee)) ∧
    Fees.validate ⟨0, 0⟩ = .ok () ∧
    (∀ amt : Nat, Fees.trading_fee ⟨0, 1⟩ amt = some 0) ∧
    process_init_pool true 274 1000 1000 0 ⟨0, 1⟩ =
      ([Cmd.mintTo .poolShareDestination INITIAL_SWAP_POOL_AMOUNT], .ok ()) := by
  refine ⟨?_, by decide, ?_, by decide⟩
  · intro slot_len balA balB hA hB
    have hA0 : ¬ (balA = 0) := by omega
    have hB0 : ¬ (balB = 0) := by omega
    simp [process_init_pool, validate_supply, hA0, hB0, Fees.validate,
      validate_fraction, validate_fees, u64_checked_mul, U64]
  · intro amt
    simp [Fees.trading_fee, calculate_fee]

theorem init_fee_schedule_spec_witness :
    process_init_pool true 274 1000 1000 0 ⟨0, 0⟩ = ([], .error .InvalidFee) ∧
    Fees.trading_fee ⟨0, 1⟩ 777 = some 0 :=
  ⟨init_fee_schedule_spec.1 274 1000 1000 (by decide) (by decide),
   init_fee_schedule_spec.2.2.1 777⟩

end TokenSwap
